import Mathlib

/-!
Shallow embedding of the aischool alert engine.

Sources embedded here:
* `src/alert_engine/enhanced_policy.py` — `EnhancedAlertEngine` (condition
  evaluation, policy loading, duplicate suppression, alert creation, action
  dispatch, the per-tick evaluation loop).
* `src/alert_engine.py` — `AlertEngine` (temperature/vibration point checks,
  per-key cooldown, bounded alert history).
* `src/alert_engine/escalation.py` — `AlertEscalationManager`.

Modelling conventions: Python `datetime` instants are integers (seconds since
an arbitrary epoch); `timedelta(minutes=m)` is `60 * m`. Numeric sensor values
and thresholds are rationals. A Python dict holding metric readings is an
association list from metric name to `Option ℚ` (`some none` = key present with
value `None`, `none` = key absent). Fallible Python code (a raised exception)
is `Except Unit`. External collaborators (the InfluxDB query, the mock LLM,
`uuid`, wall-clock `now`) are passed in explicitly as oracle parameters.
-/

namespace Aischool

/-- Python `dict.get` on a metric dict: `none` = key absent,
`some none` = key present but `None`. First binding wins (dict keys are
unique in the source). -/
def lookupKey (m : String) : List (String × Option ℚ) → Option (Option ℚ)
  | [] => none
  | (k, v) :: rest => if k = m then some v else lookupKey m rest

/-- A sensor snapshot: the metric readings plus the (string-valued)
`equipment_id` entry of the same Python dict, split out by type. -/
structure Snapshot where
  metrics : List (String × Option ℚ)
  equipment_id : Option String
deriving DecidableEq

/-- `AlertSeverity` enum of `enhanced_policy.py` (values 1–4). -/
inductive AlertSeverity
  | INFO
  | WARNING
  | CRITICAL
  | EMERGENCY
deriving DecidableEq

/-- Python `severity.name` — the string stored in an alert dict. -/
def sevName : AlertSeverity → String
  | .INFO => "INFO"
  | .WARNING => "WARNING"
  | .CRITICAL => "CRITICAL"
  | .EMERGENCY => "EMERGENCY"

/-- One condition dict of a policy: `{"metric": …, "operator": …,
"value": …, "window": …}`; `value` and `window` via `.get` may be absent. -/
structure Condition where
  metric : String
  op : String
  value : Option ℚ
  window : Option String
deriving DecidableEq

/-- `AlertPolicy` dataclass. `escalation_time` is in minutes, as in the
source. -/
structure AlertPolicy where
  name : String
  conditions : List Condition
  severity : AlertSeverity
  escalation_time : ℤ
  notification_channels : List String
  auto_actions : List String
deriving DecidableEq

/-- `EnhancedAlertEngine._check_trend` — the source's stub always returns
`False`. -/
def checkTrend (metric : String) (window : String) : Bool := false

/-- The body of one iteration of the loop in
`EnhancedAlertEngine._check_conditions`: `.ok false` means the loop executed
`return False`, `.ok true` means it fell through to the next condition,
`.error ()` means Python raised (comparison of a number with a `None`
threshold). -/
def checkOneCondition (data : Snapshot) (c : Condition) : Except Unit Bool :=
  if lookupKey c.metric data.metrics = none ∧ c.op ≠ "increasing" then
    .ok false
  else if c.op = ">" then
    match (lookupKey c.metric data.metrics).join, c.value with
    | some v, some t => .ok (decide (v > t))
    | some _, none => .error ()
    | none, _ => .ok false
  else if c.op = "<" then
    match (lookupKey c.metric data.metrics).join, c.value with
    | some v, some t => .ok (decide (v < t))
    | some _, none => .error ()
    | none, _ => .ok false
  else if c.op = "increasing" then
    .ok (checkTrend c.metric (c.window.getD "1h"))
  else
    .ok true

/-- `EnhancedAlertEngine._check_conditions` (AND over the list, stopping at
the first failing condition). -/
def checkConditions (data : Snapshot) : List Condition → Except Unit Bool
  | [] => .ok true
  | c :: cs =>
    match checkOneCondition data c with
    | .error e => .error e
    | .ok false => .ok false
    | .ok true => checkConditions data cs

/-- `EnhancedAlertEngine._load_policies`. -/
def loadPolicies : List AlertPolicy :=
  [ { name := "설비 과열 경고"
      conditions :=
        [ { metric := "temperature", op := ">", value := some 80, window := none }
        , { metric := "humidity", op := "<", value := some 30, window := none } ]
      severity := .WARNING
      escalation_time := 15
      notification_channels := ["slack", "email"]
      auto_actions := ["log", "notify_operator"] }
  , { name := "설비 임계 상태"
      conditions :=
        [ { metric := "temperature", op := ">", value := some 90, window := none }
        , { metric := "vibration_magnitude", op := ">", value := some 85, window := none } ]
      severity := .EMERGENCY
      escalation_time := 5
      notification_channels := ["slack", "email", "sms", "call"]
      auto_actions := ["log", "emergency_shutdown", "notify_manager"] }
  , { name := "예측적 유지보수 알림"
      conditions :=
        [ { metric := "vibration_trend", op := "increasing", value := none, window := some "7d" }
        , { metric := "temperature_stddev", op := ">", value := some 5, window := none } ]
      severity := .INFO
      escalation_time := 60
      notification_channels := ["email"]
      auto_actions := ["log", "schedule_maintenance"] } ]

/-- The alert dict built by `EnhancedAlertEngine._create_alert`. The
`timestamp` field is stored as an ISO string in the source and parsed back by
`datetime.fromisoformat` in `_is_duplicate`; the round trip is the identity,
so it is kept as the instant itself. -/
structure Alert where
  id : String
  timestamp : ℤ
  policy_name : String
  severity : String
  equipment_id : String
  sensor_values : List (String × Option ℚ)
  llm_summary : String
  recommended_actions : List String
  escalation_time : ℤ
  status : String
deriving DecidableEq

/-- The external inputs consumed while creating alerts on one tick:
`datetime.utcnow()` (one instant per tick), `uuid.uuid4()` and the mock
OpenAI summary (both abstracted as functions of the policy). -/
structure Ext where
  now : ℤ
  uuid : AlertPolicy → String
  ai : AlertPolicy → String

/-- `EnhancedAlertEngine._create_alert` (the awaited AI analysis is the
`ai` oracle; `recommended_actions` comes from `_get_recommended_actions`,
which returns `policy.auto_actions`). -/
def createAlert (ext : Ext) (policy : AlertPolicy) (data : Snapshot) : Alert :=
  { id := ext.uuid policy
    timestamp := ext.now
    policy_name := policy.name
    severity := sevName policy.severity
    equipment_id := data.equipment_id.getD "N/A"
    sensor_values :=
      [ ("temperature", (lookupKey "temperature" data.metrics).join)
      , ("humidity", (lookupKey "humidity" data.metrics).join)
      , ("vibration", (lookupKey "vibration" data.metrics).join)
      , ("noise", (lookupKey "noise" data.metrics).join) ]
    llm_summary := ext.ai policy
    recommended_actions := policy.auto_actions
    escalation_time := policy.escalation_time
    status := "pending" }

/-- `self.duplicate_check_window = timedelta(minutes=5)`, in seconds. -/
def dedupWindow : ℤ := 5 * 60

/-- The loop of `EnhancedAlertEngine._is_duplicate` over
`reversed(self.alert_history)`: inside the window it compares
`(policy_name, severity)`; at the first entry at or past the window edge it
executes `break` and the scan ends. -/
def dupScan (now : ℤ) (cand : Alert) : List Alert → Bool
  | [] => false
  | a :: rest =>
    if now - a.timestamp < dedupWindow then
      if a.policy_name = cand.policy_name ∧ a.severity = cand.severity then
        true
      else
        dupScan now cand rest
    else
      false

/-- `EnhancedAlertEngine._is_duplicate` (`current_time` is the tick
instant `now`). -/
def isDuplicate (now : ℤ) (history : List Alert) (cand : Alert) : Bool :=
  dupScan now cand history.reverse

/-- The action tokens `_execute_actions` recognizes. -/
def knownAction (a : String) : Bool :=
  a = "log" ∨ a = "notify_operator" ∨ a = "emergency_shutdown" ∨
    a = "schedule_maintenance"

/-- `EnhancedAlertEngine._execute_actions`, with the outcome of each
handler invocation abstracted as the oracle `impl` (`true` = the awaited
call returned, `false` = it raised). The in-repo handlers are dummies that
always return; real collaborators may fail, which is what the oracle
models. Returns the invocations performed, in order, and whether the loop
ran to completion: the source has no per-action exception handling, so a
raising handler ends the loop. Tokens outside `knownAction` match no
branch and are skipped. -/
def executeActions (impl : String → Bool) : List String → List String × Bool
  | [] => ([], true)
  | a :: rest =>
    if knownAction a then
      if impl a then
        let r := executeActions impl rest
        (a :: r.1, r.2)
      else
        ([a], false)
    else
      executeActions impl rest

/-- The loop of `EnhancedAlertEngine.evaluate_policies`, threading the
mutable `self.alert_history` and accumulating the `(policy name, action)`
dispatch trace of `_execute_actions` (whose in-repo handlers always
succeed). Result: `(triggered_alerts, alert_history, trace)`; `.error`
means a condition check raised. -/
def evalPoliciesAux (ext : Ext) (data : Snapshot) :
    List AlertPolicy → List Alert → List (String × String) →
    Except Unit (List Alert × List Alert × List (String × String))
  | [], hist, tr => .ok ([], hist, tr)
  | p :: ps, hist, tr =>
    match checkConditions data p.conditions with
    | .error e => .error e
    | .ok false => evalPoliciesAux ext data ps hist tr
    | .ok true =>
      let alert := createAlert ext p data
      if isDuplicate ext.now hist alert then
        evalPoliciesAux ext data ps hist tr
      else
        let tr2 := tr ++ (executeActions (fun _ => true) p.auto_actions).1.map
          (fun a => (p.name, a))
        match evalPoliciesAux ext data ps (hist ++ [alert]) tr2 with
        | .error e => .error e
        | .ok (trig, hist2, tr3) => .ok (alert :: trig, hist2, tr3)

/-- `EnhancedAlertEngine.evaluate_policies` on one tick, from a given
stored history. -/
def evalPolicies (ext : Ext) (data : Snapshot) (policies : List AlertPolicy)
    (hist : List Alert) :
    Except Unit (List Alert × List Alert × List (String × String)) :=
  evalPoliciesAux ext data policies hist []

/-- Whether a policy's conditions all pass on `data` (the guard of
`evaluate_policies`). -/
def policyFires (data : Snapshot) (p : AlertPolicy) : Bool :=
  match checkConditions data p.conditions with
  | .ok true => true
  | _ => false

/-! ## `src/alert_engine.py` — `AlertEngine` -/

/-- The alert dict built by `AlertEngine.check_temperature_critical` /
`check_vibration_sustained`. The formatted `message` string (and the
`duration_minutes` field of vibration alerts) carry no information any claim
observes and are not modelled. `value` is the rounded temperature, or the
sample count for vibration alerts. -/
structure TAlert where
  id : String
  timestamp : ℤ
  level : String
  sensor_id : String
  sensor_type : String
  metric : String
  value : ℚ
  threshold : ℚ
deriving DecidableEq

/-- `AlertEngine._can_send_alert`: cooldown in minutes, the clock instant
`now` passed in for `datetime.now()`, `self.alert_state` as a map from alert
key to last-sent instant. Returns the decision and the updated state. -/
def canSendAlert (now : ℤ) (st : String → Option ℤ) (alert_key : String)
    (cooldown_minutes : ℤ) : Bool × (String → Option ℤ) :=
  match st alert_key with
  | none => (true, fun k => if k = alert_key then some now else st k)
  | some last_sent =>
    if now - last_sent > 60 * cooldown_minutes then
      (true, fun k => if k = alert_key then some now else st k)
    else
      (false, st)

/-- `AlertEngine._save_alert_history`: append, then `pop(0)` while over 100
entries (the source's single `if` can only ever need one eviction). -/
def saveAlertHistory (history : List TAlert) (alert : TAlert) : List TAlert :=
  let h := history ++ [alert]
  if h.length > 100 then h.drop 1 else h

/-- The mutable state of an `AlertEngine` instance. -/
structure AlertEngineState where
  alert_state : String → Option ℤ
  alert_history : List TAlert

/-- A fresh `AlertEngine` (its `__init__` state). -/
def freshEngineState : AlertEngineState :=
  { alert_state := fun _ => none, alert_history := [] }

/-- `AlertEngine.check_temperature_critical`, with the InfluxDB `last()`
query outcome supplied as `queryResult : Option (value, record time)`
(`none` = no data point, or the query raised and the `except` swallowed it).
Rounding of the displayed value does not change the comparison and is kept
out. Returns the alert returned to the caller and the new engine state. -/
def checkTemperatureCritical (sensor_type : String) (threshold : ℚ)
    (now : ℤ) (queryResult : Option (ℚ × ℤ)) (st : AlertEngineState) :
    Option TAlert × AlertEngineState :=
  match queryResult with
  | none => (none, st)
  | some (temp, ts) =>
    if temp > threshold then
      let alert_key := "temp_critical_" ++ sensor_type
      let r := canSendAlert now st.alert_state alert_key 10
      if r.1 then
        let alert : TAlert :=
          { id := alert_key ++ "_" ++ toString ts
            timestamp := ts
            level := "CRITICAL"
            sensor_id := sensor_type
            sensor_type := sensor_type
            metric := "temperature"
            value := temp
            threshold := threshold }
        (some alert,
          { alert_state := r.2
            alert_history := saveAlertHistory st.alert_history alert })
      else
        (none, { alert_state := r.2, alert_history := st.alert_history })
    else
      (none, st)

/-- `AlertEngine.FREQ_VIBRATION = 16.0`. -/
def FREQ_VIBRATION : ℚ := 16

/-- `expected_samples = duration * 60 * self.FREQ_VIBRATION * 0.8` from
`check_vibration_sustained`. The source computes this in binary floating
point; at the duration the spec cites (5 minutes) the float product
`4800.0 * 0.8` rounds to exactly `3840.0`, so the rational value coincides. -/
def expectedSamples (duration : ℤ) : ℚ :=
  (duration : ℚ) * 60 * FREQ_VIBRATION * (8 / 10)

/-- `AlertEngine.check_vibration_sustained`, with the InfluxDB `count()`
query outcome supplied as `queryResult : Option (count, record time)`. -/
def checkVibrationSustained (sensor_type : String) (threshold : ℚ)
    (duration : ℤ) (now : ℤ) (queryResult : Option (ℕ × ℤ))
    (st : AlertEngineState) : Option TAlert × AlertEngineState :=
  match queryResult with
  | none => (none, st)
  | some (count, ts) =>
    if (count : ℚ) > expectedSamples duration then
      let alert_key := "vib_sustained_" ++ sensor_type
      let r := canSendAlert now st.alert_state alert_key 30
      if r.1 then
        let alert : TAlert :=
          { id := alert_key ++ "_" ++ toString ts
            timestamp := ts
            level := "WARNING"
            sensor_id := sensor_type
            sensor_type := sensor_type
            metric := "vibration"
            value := (count : ℚ)
            threshold := threshold }
        (some alert,
          { alert_state := r.2
            alert_history := saveAlertHistory st.alert_history alert })
      else
        (none, { alert_state := r.2, alert_history := st.alert_history })
    else
      (none, st)

/-! ## `src/alert_engine/escalation.py` — `AlertEscalationManager`

The class in the source defines only `monitor_escalations` and
`_escalate_alert`; its helpers (`get_pending_alerts`, `_get_elapsed_time`,
`_get_policy`, `_increase_severity`) exist nowhere in the repository and are
modelled from the spec below. -/

/-- Modelled from the spec: `_increase_severity` is absent from the source;
§4.7 says escalation "raises severity by one ordinal step (clamped at
EMERGENCY)". Operates on the severity-name strings stored in alert dicts. -/
def increaseSeverity : String → String
  | "INFO" => "WARNING"
  | "WARNING" => "CRITICAL"
  | "CRITICAL" => "EMERGENCY"
  | "EMERGENCY" => "EMERGENCY"
  | s => s

/-- Modelled from the spec: `get_pending_alerts` is absent from the source;
§4.7 says the monitor scans "only currently PENDING alerts". Alert dicts are
created with `status = "pending"`. -/
def getPendingAlerts (alerts : List Alert) : List Alert :=
  alerts.filter (fun a => a.status = "pending")

/-- Modelled from the spec: `_get_elapsed_time` is absent from the source;
elapsed time since the alert's creation, in seconds. -/
def getElapsedTime (now : ℤ) (a : Alert) : ℤ :=
  now - a.timestamp

/-- Modelled from the spec: `_get_policy` is absent from the source; the
registry lookup by the alert's `policy_name`. -/
def getPolicy (policies : List AlertPolicy) (name : String) :
    Option AlertPolicy :=
  policies.find? (fun p => p.name = name)

/-- `AlertEscalationManager._escalate_alert` — from the source: notifies the
manager and the emergency channels (external effects), raises the alert's
severity in place, and logs. It does NOT touch `alert['status']`. -/
def escalateAlert (a : Alert) : Alert :=
  { a with severity := increaseSeverity a.severity }

/-- One pass of the polling loop in
`AlertEscalationManager.monitor_escalations` over the stored alerts: every
pending alert whose elapsed time has reached its policy's `escalation_time`
(minutes) is escalated in place; other alerts are untouched. An alert whose
policy is not registered is left unchanged (in Python the lookup would
raise; no claim exercises that case). -/
def monitorStep (policies : List AlertPolicy) (now : ℤ)
    (alerts : List Alert) : List Alert :=
  alerts.map (fun a =>
    if a.status = "pending" then
      match getPolicy policies a.policy_name with
      | some p =>
        if getElapsedTime now a ≥ 60 * p.escalation_time then
          escalateAlert a
        else a
      | none => a
    else a)

/-! ## Concrete fixtures used in the theorems below -/

/-- Whether `_check_conditions` runs without raising on this policy
(`true` = no exception; used as a decidable side condition). -/
def condSafe (data : Snapshot) (p : AlertPolicy) : Bool :=
  match checkConditions data p.conditions with
  | .error _ => false
  | .ok _ => true

/-- An alert dict with the fields the dedup scan reads set explicitly. -/
def sampleAlert (name sev : String) (ts : ℤ) : Alert :=
  { id := "x", timestamp := ts, policy_name := name, severity := sev,
    equipment_id := "M1", sensor_values := [], llm_summary := "",
    recommended_actions := [], escalation_time := 15, status := "pending" }

/-- An action-handler outcome oracle on which the `log` handler raises and
every other handler returns. -/
def implFailLog : String → Bool := fun a => !(a = "log" : Bool)

/-- A sample `AlertEngine` alert record. -/
def ta0 : TAlert :=
  { id := "t", timestamp := 0, level := "CRITICAL", sensor_id := "s",
    sensor_type := "s", metric := "temperature", value := 1, threshold := 0 }

/-- A one-condition policy (`temperature > 80`). -/
def pSimple : AlertPolicy :=
  { name := "p"
    conditions := [{ metric := "temperature", op := ">", value := some 80, window := none }]
    severity := .CRITICAL
    escalation_time := 15
    notification_channels := []
    auto_actions := [] }

/-- A snapshot on which `pSimple` fires. -/
def data1 : Snapshot :=
  { metrics := [("temperature", some 95)], equipment_id := some "M1" }

/-- The snapshot of spec §8's AND-semantics example. -/
def data0 : Snapshot :=
  { metrics := [("temperature", some 95), ("vibration_magnitude", some 90)]
    equipment_id := some "M1" }

/-- Tick-creation oracles at instant 0. -/
def ext0 : Ext := { now := 0, uuid := fun _ => "u", ai := fun _ => "s" }

/-- Tick-creation oracles at instant 100. -/
def extW : Ext := { now := 100, uuid := fun _ => "u", ai := fun _ => "s" }

/-- Tick-creation oracles for the `n`-th tick, ticks 400 s apart (wider than
the 300 s dedup window). -/
def extAt (n : ℕ) : Ext :=
  { now := 400 * (n : ℤ), uuid := fun _ => "u", ai := fun _ => "s" }

/-- The stored history after running one `evaluate_policies` tick of the
enhanced engine with `pSimple` on `data1` at tick `n`. -/
def tickHist (st : List Alert) (n : ℕ) : List Alert :=
  match evalPoliciesAux (extAt n) data1 [pSimple] st [] with
  | .ok r => r.2.1
  | .error _ => st

/-- The enhanced engine's history after 101 accepted alerts, starting from a
fresh engine. -/
def runTicks : List Alert :=
  (List.range 101).foldl tickHist []

/-- A history holding one recent alert that duplicates what `pSimple`
produces on `data1` under `extW`. -/
def dupHist : List Alert := [sampleAlert "p" "CRITICAL" 0]

/-- An escalation-demo policy (`escalation_time = 15` minutes). -/
def policy0 : AlertPolicy :=
  { name := "p", conditions := [], severity := .WARNING, escalation_time := 15,
    notification_channels := [], auto_actions := [] }

/-- A pending WARNING alert for `policy0` created at instant 0. -/
def alert0 : Alert :=
  { id := "a1", timestamp := 0, policy_name := "p", severity := "WARNING",
    equipment_id := "M1", sensor_values := [], llm_summary := "",
    recommended_actions := [], escalation_time := 15, status := "pending" }

/-! ## Lemmas about the dedup scan -/

/-- If the scan reports a duplicate, some entry of the scanned list really
matches the candidate's `(policy_name, severity)` within the window
(soundness — no ordering assumption needed). -/
theorem dupScan_sound {now : ℤ} {cand : Alert} {l : List Alert}
    (h : dupScan now cand l = true) :
    ∃ a ∈ l, a.policy_name = cand.policy_name ∧ a.severity = cand.severity ∧
      now - a.timestamp < dedupWindow := by
  induction l with
  | nil => simp [dupScan] at h
  | cons a rest ih =>
    by_cases hw : now - a.timestamp < dedupWindow
    · by_cases hm : a.policy_name = cand.policy_name ∧ a.severity = cand.severity
      · exact ⟨a, List.mem_cons_self a rest, hm.1, hm.2, hw⟩
      · simp only [dupScan, if_pos hw, if_neg hm] at h
        obtain ⟨b, hb, h1, h2, h3⟩ := ih h
        exact ⟨b, List.mem_cons_of_mem a hb, h1, h2, h3⟩
    · simp only [dupScan, if_neg hw] at h
      exact absurd h (by simp)

/-- If the scanned list is ordered newest-first (timestamps non-increasing)
then any matching entry within the window is found by the scan
(completeness on ordered input). -/
theorem dupScan_complete {now : ℤ} {cand : Alert} {l : List Alert}
    (hsort : l.Pairwise (fun a b => b.timestamp ≤ a.timestamp))
    (h : ∃ a ∈ l, a.policy_name = cand.policy_name ∧ a.severity = cand.severity ∧
      now - a.timestamp < dedupWindow) :
    dupScan now cand l = true := by
  induction l with
  | nil => simp at h
  | cons a rest ih =>
    obtain ⟨b, hb, h1, h2, h3⟩ := h
    rcases List.mem_cons.mp hb with rfl | hb'
    · simp only [dupScan, if_pos h3, h1, h2, and_self, if_pos]
    · have hba : b.timestamp ≤ a.timestamp :=
        (List.pairwise_cons.mp hsort).1 b hb'
      have hw : now - a.timestamp < dedupWindow := by omega
      by_cases hm : a.policy_name = cand.policy_name ∧ a.severity = cand.severity
      · simp only [dupScan, if_pos hw, if_pos hm]
      · simp only [dupScan, if_pos hw, if_neg hm]
        exact ih (List.pairwise_cons.mp hsort).2 ⟨b, hb', h1, h2, h3⟩

/-- If no entry of the list matches the candidate's pair at all, the scan
reports no duplicate, whatever the timestamps. -/
theorem dupScan_eq_false {now : ℤ} {cand : Alert} {l : List Alert}
    (h : ∀ a ∈ l, ¬(a.policy_name = cand.policy_name ∧ a.severity = cand.severity)) :
    dupScan now cand l = false := by
  induction l with
  | nil => rfl
  | cons a rest ih =>
    simp only [dupScan]
    by_cases hw : now - a.timestamp < dedupWindow
    · rw [if_pos hw, if_neg (h a (List.mem_cons_self a rest))]
      exact ih fun b hb => h b (List.mem_cons_of_mem a hb)
    · rw [if_neg hw]

/-- `_is_duplicate` never suppresses a candidate whose pair occurs nowhere in
the stored history. -/
theorem isDuplicate_eq_false {now : ℤ} {hist : List Alert} {cand : Alert}
    (h : ∀ a ∈ hist, ¬(a.policy_name = cand.policy_name ∧ a.severity = cand.severity)) :
    isDuplicate now hist cand = false :=
  dupScan_eq_false fun a ha => h a (List.mem_reverse.mp ha)

/-- C2 (amended): on a history whose timestamps are in non-decreasing
(insertion) order, `_is_duplicate` suppresses a candidate exactly when some
stored alert shares its `(policy_name, severity)` pair and lies strictly
inside the 5-minute window of the current time; entries at or past the
window edge never cause suppression, so two matches more than 5 minutes
apart are both accepted. The ordering proviso is needed: the scan breaks at
the first out-of-window entry seen from the newest end. -/
theorem dedup_iff_on_ordered_history (now : ℤ) (hist : List Alert)
    (cand : Alert)
    (hsort : hist.Pairwise (fun a b => a.timestamp ≤ b.timestamp)) :
    isDuplicate now hist cand = true ↔
      ∃ a ∈ hist, a.policy_name = cand.policy_name ∧
        a.severity = cand.severity ∧ now - a.timestamp < dedupWindow := by
  constructor
  · intro h
    obtain ⟨a, ha, h'⟩ := dupScan_sound h
    exact ⟨a, List.mem_reverse.mp ha, h'⟩
  · intro ⟨a, ha, h'⟩
    refine dupScan_complete ?_ ⟨a, List.mem_reverse.mpr ha, h'⟩
    rw [List.pairwise_reverse]
    exact hsort

/-- C2 witness: the iff applied to an ordered one-entry history. -/
theorem dedup_iff_on_ordered_history_witness :
    isDuplicate 1000 [sampleAlert "p" "CRITICAL" 900]
        (sampleAlert "p" "CRITICAL" 1000) = true := by
  have h := dedup_iff_on_ordered_history 1000
    [sampleAlert "p" "CRITICAL" 900] (sampleAlert "p" "CRITICAL" 1000)
    (by simp)
  exact h.mpr ⟨sampleAlert "p" "CRITICAL" 900, by decide, by decide, by decide,
    by decide⟩

/-- C2 counterexample: the claim's iff fails on a history that is not
time-ordered. The stored alert `("p", CRITICAL)` at t = 900 matches the
candidate within the window at now = 1000, yet the scan — reaching the
out-of-window entry at t = 0 first from the newest end — breaks and does not
suppress. -/
theorem dedup_iff_fails_on_unordered_history :
    isDuplicate 1000 [sampleAlert "p" "CRITICAL" 900, sampleAlert "q" "INFO" 0]
        (sampleAlert "p" "CRITICAL" 1000) = false
    ∧ (sampleAlert "p" "CRITICAL" 900) ∈
        [sampleAlert "p" "CRITICAL" 900, sampleAlert "q" "INFO" 0]
    ∧ (sampleAlert "p" "CRITICAL" 900).policy_name =
        (sampleAlert "p" "CRITICAL" 1000).policy_name
    ∧ (sampleAlert "p" "CRITICAL" 900).severity =
        (sampleAlert "p" "CRITICAL" 1000).severity
    ∧ 1000 - (sampleAlert "p" "CRITICAL" 900).timestamp < dedupWindow := by
  decide

/-- C7 (amended): the dedup scan is guaranteed to find a within-window
match only when the history is time-ordered ascending; then any stored
alert sharing the candidate's `(policy_name, severity)` within the window
forces suppression. (On out-of-order histories the scan can stop at an
out-of-window entry and miss a later match, as its counterexample shows;
a `true` answer is sound on every history by `dupScan_sound`.) -/
theorem dedup_suppresses_match_on_ordered_history (now : ℤ)
    (hist : List Alert) (cand : Alert)
    (hsort : hist.Pairwise (fun a b => a.timestamp ≤ b.timestamp))
    (hmatch : ∃ a ∈ hist, a.policy_name = cand.policy_name ∧
      a.severity = cand.severity ∧ now - a.timestamp < dedupWindow) :
    isDuplicate now hist cand = true := by
  obtain ⟨a, ha, h'⟩ := hmatch
  refine dupScan_complete ?_ ⟨a, List.mem_reverse.mpr ha, h'⟩
  rw [List.pairwise_reverse]
  exact hsort

/-- C7 witness: suppression on an ordered two-entry history. -/
theorem dedup_suppresses_match_on_ordered_history_witness :
    isDuplicate 600 [sampleAlert "r" "INFO" 100, sampleAlert "q" "WARNING" 540]
        (sampleAlert "q" "WARNING" 600) = true :=
  dedup_suppresses_match_on_ordered_history 600
    [sampleAlert "r" "INFO" 100, sampleAlert "q" "WARNING" 540]
    (sampleAlert "q" "WARNING" 600)
    (by simp [sampleAlert])
    ⟨sampleAlert "q" "WARNING" 540, by decide, by decide, by decide, by decide⟩

/-- C7 counterexample: on an out-of-order history the scan misses a
within-window match. The entry `("q", WARNING)` at t = 540 matches the
candidate within the window at now = 600, but it is stored before an older
entry (t = 100); scanning from the newest end, the scan hits the t = 100
entry first, breaks, and reports no duplicate. -/
theorem dedup_incorrect_on_unordered_history :
    isDuplicate 600 [sampleAlert "q" "WARNING" 540, sampleAlert "r" "INFO" 100]
        (sampleAlert "q" "WARNING" 600) = false
    ∧ (sampleAlert "q" "WARNING" 540) ∈
        [sampleAlert "q" "WARNING" 540, sampleAlert "r" "INFO" 100]
    ∧ (sampleAlert "q" "WARNING" 540).policy_name =
        (sampleAlert "q" "WARNING" 600).policy_name
    ∧ (sampleAlert "q" "WARNING" 540).severity =
        (sampleAlert "q" "WARNING" 600).severity
    ∧ 600 - (sampleAlert "q" "WARNING" 540).timestamp < dedupWindow := by
  decide

/-! ## Cooldown, sustained check, condition evaluation, escalation -/

/-- C3: `_can_send_alert` grants permission exactly when no timestamp was
ever recorded for the key or the elapsed time since the last recorded one
strictly exceeds the cooldown; it records the current instant for the key
exactly when it grants, and in `check_temperature_critical` the final
cooldown state is exactly the one `_can_send_alert` produced — the update
happens at the moment permission is granted and nothing downstream of the
grant (history save, logging, notification) touches it, so a later dispatch
failure cannot reopen the cooldown. -/
theorem cooldown_allow_iff_and_records (now c : ℤ) (st : String → Option ℤ)
    (k : String) (sty : String) (thr : ℚ) (qr : Option (ℚ × ℤ))
    (est : AlertEngineState) :
    ((canSendAlert now st k c).1 = true ↔
      st k = none ∨ ∃ last, st k = some last ∧ now - last > 60 * c)
    ∧ ((canSendAlert now st k c).2 k =
        if (canSendAlert now st k c).1 then some now else st k)
    ∧ ((checkTemperatureCritical sty thr now qr est).2.alert_state =
        match qr with
        | none => est.alert_state
        | some (v, _) =>
          if v > thr then
            (canSendAlert now est.alert_state ("temp_critical_" ++ sty) 10).2
          else est.alert_state) := by
  refine ⟨?_, ?_, ?_⟩
  · cases hst : st k with
    | none => simp [canSendAlert, hst]
    | some last =>
      by_cases hc : now - last > 60 * c
      · simp only [canSendAlert, hst, if_pos hc]
        simp only [true_iff]
        exact Or.inr ⟨last, rfl, hc⟩
      · simp only [canSendAlert, hst, if_neg hc]
        constructor
        · intro h; exact absurd h (by simp)
        · rintro (h | ⟨last', hl, hgt⟩)
          · exact absurd h (by simp)
          · injection hl with h'
            exact absurd hgt (h' ▸ hc)
  · cases hst : st k with
    | none => simp [canSendAlert, hst]
    | some last =>
      by_cases hc : now - last > 60 * c
      · simp [canSendAlert, hst, if_pos hc]
      · simp [canSendAlert, hst, if_neg hc]
  · cases qr with
    | none => rfl
    | some pr =>
      rcases pr with ⟨v, ts⟩
      by_cases hv : v > thr
      · simp only [checkTemperatureCritical, if_pos hv]
        by_cases hs : (canSendAlert now est.alert_state ("temp_critical_" ++ sty) 10).1
        · simp [hs]
        · simp [hs]
      · simp [checkTemperatureCritical, if_neg hv]

/-- C4 counterexample: with duration 5 minutes and the engine's 16 Hz
sample rate, the code's sustained-check threshold is
`5 * 60 * 16 * 0.8 = 3840`, not 384 as claimed, and an observed count of
385 — which the claim says triggers — does not trigger. -/
theorem sustained_threshold_is_3840_not_384 :
    expectedSamples 5 = 3840
    ∧ expectedSamples 5 ≠ 384
    ∧ ((385 : ℚ) > 384)
    ∧ (checkVibrationSustained "vibration" 2 5 1000 (some (385, 999))
        freshEngineState).1 = none := by
  refine ⟨by norm_num [expectedSamples, FREQ_VIBRATION],
    by norm_num [expectedSamples, FREQ_VIBRATION], by norm_num, ?_⟩
  have h : ¬((385 : ℕ) : ℚ) > expectedSamples 5 := by
    norm_num [expectedSamples, FREQ_VIBRATION]
  simp only [checkVibrationSustained]
  rw [if_neg h]

/-- C4 (amended): the sustained-event check computes
`expected = D * 60 * R * 0.8` with the engine's fixed sample rate
`R = FREQ_VIBRATION = 16` Hz and triggers (on an engine whose cooldown for
the key is open, e.g. a fresh one) iff the observed over-threshold sample
count strictly exceeds `expected`; with `D = 5` the threshold is 3840, so
3840 observed samples do not trigger and 3841 do. -/
theorem sustained_trigger_iff_strict (sty : String) (thr : ℚ)
    (duration now : ℤ) (count : ℕ) (ts : ℤ) :
    ((checkVibrationSustained sty thr duration now (some (count, ts))
        freshEngineState).1.isSome
      = decide ((count : ℚ) > expectedSamples duration))
    ∧ expectedSamples 5 = 3840
    ∧ (checkVibrationSustained "vibration" 2 5 1000 (some (3840, 999))
        freshEngineState).1 = none
    ∧ (checkVibrationSustained "vibration" 2 5 1000 (some (3841, 999))
        freshEngineState).1.isSome = true := by
  have h0 : ¬((3840 : ℕ) : ℚ) > expectedSamples 5 := by
    norm_num [expectedSamples, FREQ_VIBRATION]
  have h1 : ((3841 : ℕ) : ℚ) > expectedSamples 5 := by
    norm_num [expectedSamples, FREQ_VIBRATION]
  refine ⟨?_, by norm_num [expectedSamples, FREQ_VIBRATION],
    by simp only [checkVibrationSustained]; rw [if_neg h0],
    by simp only [checkVibrationSustained]; rw [if_pos h1]; rfl⟩
  by_cases h : (count : ℚ) > expectedSamples duration
  · simp only [checkVibrationSustained]
    rw [if_pos h]
    simp [canSendAlert, freshEngineState, h]
  · simp only [checkVibrationSustained]
    rw [if_neg h]
    simp [h]

/-- C5: for `>` / `<` conditions, `_check_conditions` lets the condition
pass exactly when the metric is present in the snapshot with a non-null
value and the strict comparison holds; a value equal to the threshold, a
null value, and an absent metric all evaluate false — returned as a normal
`False` result, not an exception. Likewise `check_temperature_critical`
compares strictly: a reading exactly at the threshold raises no alert. -/
theorem condition_eval_strict_and_total (data : Snapshot) (m : String)
    (w : Option String) (t : ℚ) (sty : String) (thr : ℚ) (now ts : ℤ)
    (est : AlertEngineState) :
    (checkOneCondition data ⟨m, ">", some t, w⟩ =
      .ok (match (lookupKey m data.metrics).join with
           | some v => decide (v > t)
           | none => false))
    ∧ (checkOneCondition data ⟨m, "<", some t, w⟩ =
      .ok (match (lookupKey m data.metrics).join with
           | some v => decide (v < t)
           | none => false))
    ∧ (checkTemperatureCritical sty thr now (some (thr, ts)) est).1 = none := by
  refine ⟨?_, ?_, by simp [checkTemperatureCritical]⟩
  · cases hl : lookupKey m data.metrics with
    | none => simp [checkOneCondition, hl]
    | some vo => cases vo <;> simp [checkOneCondition, hl]
  · cases hl : lookupKey m data.metrics with
    | none => simp [checkOneCondition, hl]
    | some vo => cases vo <;> simp [checkOneCondition, hl]

/-- C1: the escalation monitor is not idempotent. An alert created at t = 0
with a 15-minute escalation time, still pending, polled at t = 960 s is
escalated (severity WARNING → CRITICAL) but its status is left `"pending"`
by `_escalate_alert`, so a second poll at t = 1200 s escalates it again
(severity → EMERGENCY) instead of changing nothing. -/
theorem escalation_reescalates_every_poll :
    monitorStep [policy0] 960 [alert0] =
      [{ alert0 with severity := "CRITICAL" }]
    ∧ (monitorStep [policy0] 960 [alert0]).all (fun a => a.status = "pending")
    ∧ monitorStep [policy0] 1200 (monitorStep [policy0] 960 [alert0]) =
        [{ alert0 with severity := "EMERGENCY" }]
    ∧ monitorStep [policy0] 1200 (monitorStep [policy0] 960 [alert0]) ≠
        monitorStep [policy0] 960 [alert0] := by
  decide

/-! ## Action dispatch -/

/-- When every handler invocation succeeds, `_execute_actions` invokes
exactly the recognized tokens, in list order, skipping unknown ones. -/
theorem executeActions_all_ok (impl : String → Bool)
    (hall : ∀ b, impl b = true) :
    ∀ acts : List String,
      executeActions impl acts = (acts.filter knownAction, true)
  | [] => rfl
  | x :: rest => by
    by_cases hk : knownAction x = true
    · simp [executeActions, List.filter_cons, hk, hall x,
        executeActions_all_ok impl hall rest]
    · simp [executeActions, List.filter_cons, hk,
        executeActions_all_ok impl hall rest]

/-- C8 (amended): `_execute_actions` iterates `auto_actions` in order; a
token that matches no branch is skipped silently (no warning is emitted)
without aborting the loop; but the loop catches nothing, so when a
recognized action's handler raises, the exception propagates and none of
the remaining actions is executed — the performed invocations are exactly
the recognized tokens before the failing one, plus the failing one. -/
theorem action_dispatch_order_and_abort :
    (∀ (impl : String → Bool), (∀ b, impl b = true) →
      ∀ acts : List String,
        executeActions impl acts = (acts.filter knownAction, true))
    ∧ (∀ (impl : String → Bool) (pre post : List String) (a : String),
        (∀ b ∈ pre, impl b = true) → knownAction a = true → impl a = false →
        executeActions impl (pre ++ a :: post) =
          (pre.filter knownAction ++ [a], false)) := by
  constructor
  · exact executeActions_all_ok
  · intro impl pre post a hpre ha hf
    induction pre with
    | nil => simp [executeActions, ha, hf]
    | cons x pre' ih =>
      have hx : impl x = true := hpre x (List.mem_cons_self x pre')
      have ih' := ih fun b hb => hpre b (List.mem_cons_of_mem x hb)
      by_cases hk : knownAction x = true
      · simp [executeActions, List.filter_cons, hk, hx, ih']
      · simp [executeActions, List.filter_cons, hk, ih']

/-- C8 witness: with a handler oracle on which `log` raises, dispatching
`[notify_operator, log, emergency_shutdown]` performs `notify_operator`
then `log` and aborts. -/
theorem action_dispatch_order_and_abort_witness :
    executeActions implFailLog
        ["notify_operator", "log", "emergency_shutdown"] =
      (["notify_operator", "log"], false) := by
  have h := action_dispatch_order_and_abort.2 implFailLog ["notify_operator"]
    ["emergency_shutdown"] "log" (by decide) (by decide) (by decide)
  exact h

/-- C8 counterexample: the claim says a failure raised by one action is
caught so that the remaining actions still execute; in the code a failing
`log` handler ends the loop and `emergency_shutdown` is never invoked. -/
theorem action_failure_prevents_remaining_actions :
    executeActions implFailLog ["log", "emergency_shutdown"] = (["log"], false)
    ∧ "emergency_shutdown" ∉
        (executeActions implFailLog ["log", "emergency_shutdown"]).1 := by
  decide

/-! ## Alert-history retention -/

/-- `_save_alert_history` preserves the 100-entry bound. -/
theorem saveAlertHistory_length_le {history : List TAlert}
    (h : history.length ≤ 100) (a : TAlert) :
    (saveAlertHistory history a).length ≤ 100 := by
  simp only [saveAlertHistory]
  split
  · simp only [List.length_drop, List.length_append, List.length_singleton]
    omega
  · next hle =>
    simp only [gt_iff_lt, not_lt] at hle
    exact hle

/-- Any sequence of `_save_alert_history` calls starting within the bound
stays within it. -/
theorem foldl_save_bounded : ∀ (alerts : List TAlert) (history : List TAlert),
    history.length ≤ 100 →
    (alerts.foldl saveAlertHistory history).length ≤ 100
  | [], _, h => by simpa using h
  | a :: rest, history, h => by
    rw [List.foldl_cons]
    exact foldl_save_bounded rest _ (saveAlertHistory_length_le h a)

/-- C9 (amended): `AlertEngine._save_alert_history` keeps the history at no
more than 100 entries after every sequence of recordings, and evicts the
oldest entry first when an insertion would exceed the bound.
(`EnhancedAlertEngine.evaluate_policies` appends to its own
`alert_history` with no bound at all — see the counterexample — so the
invariant holds for the `AlertEngine` variant only.) -/
theorem alert_history_bound_engine_variants :
    (∀ alerts : List TAlert,
      (alerts.foldl saveAlertHistory []).length ≤ 100)
    ∧ (∀ (history : List TAlert) (a : TAlert), history.length = 100 →
        saveAlertHistory history a = history.drop 1 ++ [a]) := by
  constructor
  · intro alerts
    exact foldl_save_bounded alerts [] (by simp)
  · intro history a h
    have hgt : (history ++ [a]).length > 100 := by
      simp [List.length_append, h]
    simp only [saveAlertHistory, if_pos hgt]
    exact List.drop_append_of_le_length (by omega)

/-- C9 witness: evicting the oldest entry of a full history. -/
theorem alert_history_bound_engine_variants_witness :
    saveAlertHistory (List.replicate 100 ta0) ta0 =
      (List.replicate 100 ta0).drop 1 ++ [ta0] :=
  alert_history_bound_engine_variants.2 (List.replicate 100 ta0) ta0 (by simp)

set_option maxRecDepth 100000 in
/-- C9 counterexample: the enhanced engine's history is unbounded. Starting
from a fresh engine and running 101 evaluation ticks, each 400 s apart
(outside the dedup window) with a snapshot that fires `pSimple`, the stored
history reaches 101 entries, exceeding the claimed retention bound of
100. -/
theorem enhanced_history_exceeds_retention_bound :
    runTicks.length = 101 ∧ ¬ runTicks.length ≤ 100 := by
  decide

/-! ## The evaluation loop -/

/-- A successful `evaluate_policies` tick grows the stored history by
exactly the alerts it returned, in order: suppressed candidates are never
recorded. -/
theorem evalPoliciesAux_hist_append (ext : Ext) (data : Snapshot) :
    ∀ (ps : List AlertPolicy) (hist : List Alert)
      (tr : List (String × String)) (trig hist2 : List Alert)
      (tr2 : List (String × String)),
      evalPoliciesAux ext data ps hist tr = .ok (trig, hist2, tr2) →
      hist2 = hist ++ trig
  | [], hist, tr, trig, hist2, tr2, h => by
    simp only [evalPoliciesAux, Except.ok.injEq, Prod.mk.injEq] at h
    obtain ⟨h1, h2, h3⟩ := h
    simp [← h1, ← h2]
  | p :: ps, hist, tr, trig, hist2, tr2, h => by
    cases hc : checkConditions data p.conditions with
    | error e =>
      simp only [evalPoliciesAux, hc] at h
      exact Except.noConfusion h
    | ok b =>
      cases b with
      | false =>
        simp only [evalPoliciesAux, hc] at h
        exact evalPoliciesAux_hist_append ext data ps hist tr trig hist2 tr2 h
      | true =>
        by_cases hd : isDuplicate ext.now hist (createAlert ext p data) = true
        · simp only [evalPoliciesAux, hc, if_pos hd] at h
          exact evalPoliciesAux_hist_append ext data ps hist tr trig hist2 tr2 h
        · simp only [evalPoliciesAux, hc, if_neg hd] at h
          cases hr : evalPoliciesAux ext data ps (hist ++ [createAlert ext p data])
              (tr ++ (executeActions (fun _ => true) p.auto_actions).1.map
                (fun a => (p.name, a))) with
          | error e => rw [hr] at h; cases h
          | ok r =>
            rw [hr] at h
            rcases r with ⟨trig', hist2', tr3⟩
            simp only [Except.ok.injEq, Prod.mk.injEq] at h
            obtain ⟨h1, h2, h3⟩ := h
            have hrec := evalPoliciesAux_hist_append ext data ps
              (hist ++ [createAlert ext p data])
              (tr ++ (executeActions (fun _ => true) p.auto_actions).1.map
                (fun a => (p.name, a))) trig' hist2' tr3 hr
            subst h1 h2
            simp [hrec, List.append_assoc]

/-- C10: suppression denials leave the engine state unchanged. A policy
whose conditions pass but whose candidate alert is judged a duplicate
contributes nothing to the tick — the loop continues exactly as if the
policy were absent, so the candidate is not recorded and no auto-action of
its policy is dispatched; a successful tick's final history is the initial
history plus exactly the accepted alerts, so the dedup window is always
measured from the last accepted alert; and a cooldown denial leaves the
cooldown map untouched. -/
theorem suppression_denials_leave_state_unchanged (ext : Ext)
    (data : Snapshot) (p : AlertPolicy) (ps : List AlertPolicy)
    (hist : List Alert) (tr : List (String × String)) (now c : ℤ)
    (st : String → Option ℤ) (k : String)
    (hfire : checkConditions data p.conditions = .ok true)
    (hdup : isDuplicate ext.now hist (createAlert ext p data) = true) :
    evalPoliciesAux ext data (p :: ps) hist tr =
      evalPoliciesAux ext data ps hist tr
    ∧ ((canSendAlert now st k c).1 = false → (canSendAlert now st k c).2 = st)
    ∧ (∀ trig hist2 tr2,
        evalPoliciesAux ext data ps hist tr = .ok (trig, hist2, tr2) →
        hist2 = hist ++ trig) := by
  refine ⟨?_, ?_, fun trig hist2 tr2 h =>
    evalPoliciesAux_hist_append ext data ps hist tr trig hist2 tr2 h⟩
  · simp only [evalPoliciesAux, hfire, if_pos hdup]
  · intro hfalse
    cases hst : st k with
    | none =>
      simp only [canSendAlert, hst] at hfalse
      exact absurd hfalse (by simp)
    | some last =>
      by_cases hc2 : now - last > 60 * c
      · simp only [canSendAlert, hst, if_pos hc2] at hfalse
        exact absurd hfalse (by simp)
      · simp only [canSendAlert, hst, if_neg hc2]

/-- C10 witness: a duplicate-suppressed policy changes nothing on a
concrete engine state. -/
theorem suppression_denials_leave_state_unchanged_witness :
    evalPoliciesAux extW data1 [pSimple] dupHist [] =
      evalPoliciesAux extW data1 [] dupHist [] :=
  (suppression_denials_leave_state_unchanged extW data1 pSimple [] dupHist []
    0 10 (fun _ => none) "k" rfl (by decide)).1

/-- Mirrors the earlier `executeActions_all_ok` at the always-succeeding
in-repo handlers, the form the evaluation loop uses. -/
theorem executeActions_dummy (acts : List String) :
    executeActions (fun _ => true) acts = (acts.filter knownAction, true) :=
  executeActions_all_ok (fun _ => true) (fun _ => rfl) acts

/-- On a tick whose policies have pairwise-distinct names, none of whose
stored history shares a name with them, and none of whose condition lists
raises, `evaluate_policies` accepts exactly the policies whose conditions
all pass, in registration order. -/
theorem evalPoliciesAux_no_duplicates (ext : Ext) (data : Snapshot) :
    ∀ (ps : List AlertPolicy) (hist : List Alert)
      (tr : List (String × String)),
      (∀ a ∈ hist, ∀ p ∈ ps, a.policy_name ≠ p.name) →
      (∀ p ∈ ps, condSafe data p = true) →
      ps.Pairwise (fun p q => p.name ≠ q.name) →
      evalPoliciesAux ext data ps hist tr =
        .ok ((ps.filter (policyFires data)).map (fun p => createAlert ext p data),
          hist ++ (ps.filter (policyFires data)).map
            (fun p => createAlert ext p data),
          tr ++ ((ps.filter (policyFires data)).map
            (fun p => (p.auto_actions.filter knownAction).map
              (fun a => (p.name, a)))).flatten)
  | [], hist, tr, _, _, _ => by simp [evalPoliciesAux]
  | p :: ps, hist, tr, hh, hs, hp => by
    have hsafe_p : condSafe data p = true := hs p (List.mem_cons_self p ps)
    cases hc : checkConditions data p.conditions with
    | error e =>
      rw [condSafe, hc] at hsafe_p
      cases hsafe_p
    | ok b =>
      cases b with
      | false =>
        have hfires : policyFires data p = false := by simp [policyFires, hc]
        have ih := evalPoliciesAux_no_duplicates ext data ps hist tr
          (fun a ha q hq => hh a ha q (List.mem_cons_of_mem p hq))
          (fun q hq => hs q (List.mem_cons_of_mem p hq))
          (List.pairwise_cons.mp hp).2
        simp only [evalPoliciesAux, hc, List.filter_cons, hfires]
        simpa using ih
      | true =>
        have hfires : policyFires data p = true := by simp [policyFires, hc]
        have hnodup : isDuplicate ext.now hist (createAlert ext p data) = false :=
          isDuplicate_eq_false fun a ha hm =>
            hh a ha p (List.mem_cons_self p ps) hm.1
        have hh' : ∀ a ∈ hist ++ [createAlert ext p data], ∀ q ∈ ps,
            a.policy_name ≠ q.name := by
          intro a ha q hq
          rcases List.mem_append.mp ha with ha' | ha'
          · exact hh a ha' q (List.mem_cons_of_mem p hq)
          · have : a = createAlert ext p data := by simpa using ha'
            rw [this]
            exact (List.pairwise_cons.mp hp).1 q hq
        have ih := evalPoliciesAux_no_duplicates ext data ps
          (hist ++ [createAlert ext p data])
          (tr ++ ((executeActions (fun _ => true) p.auto_actions).1.map
            (fun a => (p.name, a))))
          hh' (fun q hq => hs q (List.mem_cons_of_mem p hq))
          (List.pairwise_cons.mp hp).2
        rw [executeActions_dummy] at ih
        simp only [evalPoliciesAux, hc, hnodup, Bool.false_eq_true, if_false,
          executeActions_dummy, ih, List.filter_cons, hfires, if_true]
        simp [List.append_assoc]

/-- C6: on a fresh engine (empty history) whose policies carry pairwise
distinct names and raise no exception on this snapshot,
`evaluate_policies` returns exactly the policies whose every condition
evaluates true, in registration order, as freshly created alerts (and
records and dispatches exactly those); and condition checking AND-combines
with a short circuit — once a condition evaluates false the policy cannot
fire, whatever the remaining conditions would do. -/
theorem evaluate_policies_and_semantics (ext : Ext) (data : Snapshot)
    (policies : List AlertPolicy)
    (hnames : policies.Pairwise (fun p q => p.name ≠ q.name))
    (hsafe : ∀ p ∈ policies, condSafe data p = true) :
    evalPolicies ext data policies [] =
      .ok ((policies.filter (policyFires data)).map
          (fun p => createAlert ext p data),
        (policies.filter (policyFires data)).map
          (fun p => createAlert ext p data),
        ((policies.filter (policyFires data)).map
          (fun p => (p.auto_actions.filter knownAction).map
            (fun a => (p.name, a)))).flatten)
    ∧ (∀ (c : Condition) (cs : List Condition),
        checkOneCondition data c = .ok false →
        checkConditions data (c :: cs) = .ok false) := by
  constructor
  · have h := evalPoliciesAux_no_duplicates ext data policies [] []
      (by simp) hsafe hnames
    simpa [evalPolicies] using h
  · intro c cs h
    simp [checkConditions, h]

/-- C6 witness: spec §8's AND-semantics example — on the snapshot
`{temperature: 95, vibration_magnitude: 90}` exactly the emergency policy
`설비 임계 상태` of the loaded registry fires. -/
theorem evaluate_policies_and_semantics_witness :
    (evalPolicies ext0 data0 loadPolicies []).map
        (fun r => r.1.map Alert.policy_name) = .ok ["설비 임계 상태"] := by
  have h := (evaluate_policies_and_semantics ext0 data0 loadPolicies
    (by decide) (by decide)).1
  rw [h]
  rfl

end Aischool
